import Mathlib

/-!
# Effortless-Backup-with-Duplicate-Detection: verification of the engine

A shallow embedding of the backup/deduplication engine:

* `src/utils/hash_calculator.py` — `HashCalculator.calculate_hash` and its two
  strategies (`_calculate_full_hash`, the sampled three-window hash);
* `src/core/file_scanner.py` — `add_entry_to_database` (size logic) and
  `find_duplicates`;
* `src/core/backup_manager.py` — `get_free_space`, `backup_files`,
  `backup_file`, `copy_file`, `copy_folder`, `create_symlink`;
* `src/database/database_manager.py` — the `files` table as a list of rows and
  the UPDATE/SELECT helpers used by the engine;
* `src/gui/main_window.py` — `start_backup` (the free-space precondition).

File contents are modelled as `List Nat` (byte lists); the cryptographic
digest is an abstract parameter `H : List Nat → String` (the engine never
inspects digests, it only compares them).  Readability of a file is modelled
by `contents : String → Option (List Nat)`: `none` means any attempt to read
raises, which `calculate_hash` catches, returning Python's `None`
(`Option.none` here).  Filesystem side effects of the executor are recorded
in an action log; the environment `FsEnv` says which primitive operations
raise.  Python's recursion limit for the mutual recursion between
`copy_file` and `create_symlink` is modelled by a fuel parameter whose
exhaustion raises (as `RecursionError` would).
-/

/-- One row of the `files` table (`database_manager.initialize_database`).
`ftype` is the Python dict key `"type"`.  Ids are SQLite AUTOINCREMENT ids,
hence ≥ 1 and unique; `content_owner_id` is therefore never `some 0`, so
Python's truthiness test `if file.get("content_owner_id"):` is `Option.isSome`
here. -/
structure FileEntry where
  id : Nat
  name : String
  path : String
  size : Nat
  ftype : String
  status : String
  parent_id : Option Nat
  hash : Option String
  is_symlink : Nat
  content_owner_id : Option Nat
deriving DecidableEq, Repr

/-- `UPDATE files SET ... WHERE id = ?`: rewrite every row whose id matches. -/
def db_update (db : List FileEntry) (i : Nat) (g : FileEntry → FileEntry) :
    List FileEntry :=
  db.map fun e => if e.id = i then g e else e

/-- `DatabaseManager.update_file_status`. -/
def update_file_status (db : List FileEntry) (file_id : Nat) (status : String) :
    List FileEntry :=
  db_update db file_id fun e => { e with status := status }

/-- `DatabaseManager.update_file_hash` (a `None` hash value writes NULL). -/
def update_file_hash (db : List FileEntry) (file_id : Nat)
    (hash_value : Option String) : List FileEntry :=
  db_update db file_id fun e => { e with hash := hash_value }

/-- `DatabaseManager.update_file_content_owner`. -/
def update_file_content_owner (db : List FileEntry) (file_id : Nat)
    (content_owner_id : Nat) : List FileEntry :=
  db_update db file_id fun e => { e with content_owner_id := some content_owner_id }

/-- `DatabaseManager.get_file_by_path`: first row matching the path
(`fetchone`); `path` is UNIQUE in the schema, so at most one row matches. -/
def get_file_by_path (db : List FileEntry) (path : String) : Option FileEntry :=
  db.find? fun e => e.path = path

/-- `DatabaseManager.get_all_files` (`SELECT * FROM files`). -/
def get_all_files (db : List FileEntry) : List FileEntry := db

/-- Does the character list `pre` start the character list `l`? -/
def starts_with_list : List Char → List Char → Bool
  | [], _ => true
  | _ :: _, [] => false
  | a :: as, b :: bs => a = b && starts_with_list as bs

/-- `os.path.relpath(p, start)` for the cases the engine exercises: `p` equal
to `start`, or `p` lying strictly below `start`.  (The `..`-inserting cases of
`relpath` are never reached: every catalog path is under the mount root.) -/
def relPath (p start : String) : String :=
  if p = start then "."
  else
    let sc := (start ++ "/").data
    let pc := p.data
    if starts_with_list sc pc then String.mk (pc.drop sc.length) else p

/-- `os.path.join(a, b)` for a relative `b`, as produced by `relPath`. -/
def joinPath (a b : String) : String := a ++ "/" ++ b

/-- `os.path.dirname`: everything before the last `/`, or `""` when there is
no `/`.  (For a path whose parent is the filesystem root `os.path.dirname`
returns `"/"` instead of `""`; no destination path in the engine has the root
as parent, since destinations are re-rooted under the backup destination.) -/
def dirname (p : String) : String :=
  match (p.data.reverse.dropWhile fun ch => ch ≠ '/') with
  | [] => ""
  | _ :: t => String.mk t.reverse

/-- `f.read(n)` after `f.seek(pos)` on a file whose bytes are `c`. -/
def file_read (c : List Nat) (pos n : Nat) : List Nat := (c.drop pos).take n

/-- The byte stream fed to the digest by `HashCalculator._calculate_full_hash`:
the while-loop reads 4096-byte chunks until `read` returns empty, feeding each
chunk to `hasher.update`. -/
def full_hash_input (c : List Nat) : List Nat :=
  if c = [] then []
  else c.take 4096 ++ full_hash_input (c.drop 4096)
termination_by c.length
decreasing_by
  simp only [List.length_drop]
  have hpos : 0 < c.length := List.length_pos.mpr (by assumption)
  omega

/-- The byte stream fed to the digest by the sampled (three-window) strategy
of `HashCalculator` (Python `_calculate_partial_hash`): 100 KiB from the file
start, 100 KiB from `max(0, size//2 - chunk//2)`, 100 KiB from
`max(0, size - chunk)`, where `size = os.path.getsize(file_path)` is the byte
length of the content.  Python's `max(0, a - b)` on ints is truncated `Nat`
subtraction here. -/
def sampled_hash_input (c : List Nat) : List Nat :=
  let chunk_size := 100 * 1024
  let sz := c.length
  file_read c 0 chunk_size ++
    file_read c (sz / 2 - chunk_size / 2) chunk_size ++
    file_read c (sz - chunk_size) chunk_size

/-- `HashCalculator.calculate_hash(file_path, file_size)`.  `content` is what
reading `file_path` yields (`none` = the read raises); any exception is caught
and `None` is returned — note `calculate_hash` never raises.  The strategy
branch uses the `file_size` argument (the catalog's stat size); the sampled
windows use `os.path.getsize`, i.e. the current content length. -/
def calculate_hash (H : List Nat → String) (content : Option (List Nat))
    (file_size : Nat) : Option String :=
  match content with
  | none => none
  | some c =>
      if file_size < 1024 * 1024 then some (H (full_hash_input c))
      else some (H (sampled_hash_input c))

/-- The `size` column written by `FileScanner.add_entry_to_database`:
`entry.stat().st_size if file_type != "symlink" else 0`. -/
def scanned_entry_size (file_type : String) (stat_size : Nat) : Nat :=
  if file_type ≠ "symlink" then stat_size else 0

/-- The row inserted by `FileScanner.add_entry_to_database` (status starts
`"pending"`, hash and content owner NULL). -/
def add_entry_row (name path : String) (stat_size : Nat) (file_type : String)
    (parent_id : Option Nat) (is_sym : Nat) (new_id : Nat) : FileEntry :=
  { id := new_id, name := name, path := path,
    size := scanned_entry_size file_type stat_size, ftype := file_type,
    status := "pending", parent_id := parent_id, hash := none,
    is_symlink := is_sym, content_owner_id := none }

/-- Lookup in the in-memory `hashes` dict of `find_duplicates`.  The keys are
the values returned by `calculate_hash` — including Python `None` for failed
hashes, hence `Option String`. -/
def dict_lookup (m : List (Option String × Nat)) (k : Option String) :
    Option Nat :=
  match m.find? fun kv => kv.1 = k with
  | some kv => some kv.2
  | none => none

/-- The loop body of `FileScanner.find_duplicates` over the snapshot list
returned by `get_all_files`.  For each snapshot row of type `"file"` with
`size > size_threshold`: compute the hash, persist it (even when `None`),
then either link to the id stored in the dict for that hash value or record
this id as the hash's first owner.  The `except` clause around the body is
dead code: `calculate_hash` catches its own errors and the DB helpers catch
`sqlite3.Error` internally. -/
def find_duplicates_loop (H : List Nat → String)
    (contents : String → Option (List Nat)) (size_threshold : Nat) :
    List FileEntry → List (Option String × Nat) → List FileEntry →
    List FileEntry
  | [], _, db => db
  | f :: rest, hashes, db =>
      if f.ftype = "file" ∧ size_threshold < f.size then
        let hash_value := calculate_hash H (contents f.path) f.size
        let db1 := update_file_hash db f.id hash_value
        match dict_lookup hashes hash_value with
        | some original_file_id =>
            find_duplicates_loop H contents size_threshold rest hashes
              (update_file_content_owner db1 f.id original_file_id)
        | none =>
            find_duplicates_loop H contents size_threshold rest
              ((hash_value, f.id) :: hashes) db1
      else
        find_duplicates_loop H contents size_threshold rest hashes db

/-- `FileScanner.find_duplicates(size_threshold, ...)`: iterate the snapshot
of all rows with an initially empty hash dict. -/
def find_duplicates (H : List Nat → String)
    (contents : String → Option (List Nat)) (size_threshold : Nat)
    (db : List FileEntry) : List FileEntry :=
  find_duplicates_loop H contents size_threshold (get_all_files db) [] db

/-- A recorded filesystem side effect of the Backup Executor. -/
inductive FsAction where
  | mkdirs : String → FsAction
  | copy2 : String → String → FsAction
  | symlink : String → String → FsAction
deriving DecidableEq, Repr

/-- The environment of the Backup Executor: which primitive filesystem calls
raise (`os.makedirs`, `shutil.copy2`, `os.symlink` — all of whose failures
are `OSError`s), and what `shutil.disk_usage` reports per path (`none` = the
call raises). -/
structure FsEnv where
  mkdirFails : String → Bool
  symlinkFails : String → String → Bool
  copyFails : String → String → Bool
  diskUsage : String → Option (Nat × Nat × Nat)

/-- Configuration used by the executor: `MOUNTED_PATH`, `BACKUP_DESTINATION`. -/
structure Config where
  mounted_path : String
  backup_destination : String
deriving DecidableEq, Repr

/-- `BackupManager.get_free_space`: the free component of
`shutil.disk_usage`, or 0 when the call raises. -/
def get_free_space (du : Option (Nat × Nat × Nat)) : Nat :=
  match du with
  | some t => t.2.2
  | none => 0

mutual

/-- `BackupManager.copy_file(file, file_path, dest_path, backup_destination)`.
Returns the action log on success, or `Except.error` (= raising) carrying the
actions performed before the exception.  The first `Nat` argument is fuel for
the `copy_file`/`create_symlink` mutual recursion; fuel 0 raises, as Python's
`RecursionError` would.  When `content_owner_id` is set, the "original" is
looked up with `get_file_by_path(file_path)` — `file_path` being the argument
this very call received. -/
def copy_file (env : FsEnv) (cfg : Config) :
    Nat → List FileEntry → FileEntry → String → String → String →
    List FsAction → Except (List FsAction) (List FsAction)
  | 0, _, _, _, _, _, log => Except.error log
  | fuel + 1, db, file, file_path, dest_path, backup_destination, log =>
      if env.mkdirFails (dirname dest_path) then Except.error log
      else
        let log1 := log ++ [FsAction.mkdirs (dirname dest_path)]
        if file.content_owner_id.isSome then
          match get_file_by_path db file_path with
          | some original_file =>
              let original_dest_path :=
                joinPath backup_destination (relPath original_file.path cfg.mounted_path)
              create_symlink env cfg fuel db file original_dest_path dest_path log1
          | none =>
              if env.copyFails file_path dest_path then Except.error log1
              else Except.ok (log1 ++ [FsAction.copy2 file_path dest_path])
        else
          if env.copyFails file_path dest_path then Except.error log1
          else Except.ok (log1 ++ [FsAction.copy2 file_path dest_path])

/-- `BackupManager.create_symlink(file, target_path, link_path)`.  Both
`os.makedirs` and `os.symlink` raise `OSError`s, which the `except OSError`
clause turns into the fallback `copy_file(file, target_path, link_path,
BACKUP_DESTINATION)`; exceptions raised by the fallback itself propagate. -/
def create_symlink (env : FsEnv) (cfg : Config) :
    Nat → List FileEntry → FileEntry → String → String → List FsAction →
    Except (List FsAction) (List FsAction)
  | 0, _, _, _, _, log => Except.error log
  | fuel + 1, db, file, target_path, link_path, log =>
      if env.mkdirFails (dirname link_path) then
        copy_file env cfg fuel db file target_path link_path
          cfg.backup_destination log
      else
        let log1 := log ++ [FsAction.mkdirs (dirname link_path)]
        if env.symlinkFails target_path link_path then
          copy_file env cfg fuel db file target_path link_path
            cfg.backup_destination log1
        else Except.ok (log1 ++ [FsAction.symlink target_path link_path])

end

/-- `BackupManager.copy_folder`: `os.makedirs(dest_path, exist_ok=True)`,
re-raising on failure. -/
def copy_folder (env : FsEnv) (dest_path : String) (log : List FsAction) :
    Except (List FsAction) (List FsAction) :=
  if env.mkdirFails dest_path then Except.error log
  else Except.ok (log ++ [FsAction.mkdirs dest_path])

/-- Catalog plus the log of filesystem actions performed so far. -/
structure BMState where
  db : List FileEntry
  fsActions : List FsAction
deriving DecidableEq, Repr

/-- `BackupManager.backup_file(file, backup_destination)`: compute the
destination path by re-rooting, set status `"copying"`, dispatch on the
entry kind, then set `"success"`, or `"failed"` if anything raised.  An entry
of an unknown kind matches no branch and is marked `"success"`. -/
def backup_file (env : FsEnv) (cfg : Config) (fuel : Nat) (file : FileEntry)
    (backup_destination : String) (st : BMState) : BMState :=
  let file_path := file.path
  let dest_path := joinPath backup_destination (relPath file_path cfg.mounted_path)
  let db1 := update_file_status st.db file.id "copying"
  let result :=
    if file.ftype = "file" then
      copy_file env cfg fuel db1 file file_path dest_path backup_destination []
    else if file.ftype = "folder" then
      copy_folder env dest_path []
    else if file.ftype = "symlink" then
      create_symlink env cfg fuel db1 file file_path dest_path []
    else Except.ok []
  match result with
  | Except.ok actions =>
      { db := update_file_status db1 file.id "success",
        fsActions := st.fsActions ++ actions }
  | Except.error actions =>
      { db := update_file_status db1 file.id "failed",
        fsActions := st.fsActions ++ actions }

/-- `BackupManager.backup_files(files, progress_bar)`: process the selection
in order; progress reporting and the simulated sleep have no effect on the
catalog or the filesystem and are omitted. -/
def backup_files (env : FsEnv) (cfg : Config) (fuel : Nat)
    (files : List FileEntry) (st : BMState) : BMState :=
  files.foldl (fun s f => backup_file env cfg fuel f cfg.backup_destination s) st

/-- `MainWindow.start_backup`: the selection set is supplied by the GUI
collaborator (a list of catalog rows); an empty selection returns after a
message box, and `free_space < total_size` returns before `backup_files` is
invoked. -/
def start_backup (env : FsEnv) (cfg : Config) (fuel : Nat)
    (selected_files : List FileEntry) (st : BMState) : BMState :=
  if selected_files.isEmpty then st
  else
    let total_size := (selected_files.map fun f => f.size).sum
    let free_space := get_free_space (env.diskUsage cfg.backup_destination)
    if free_space < total_size then st
    else backup_files env cfg fuel selected_files st

/-- Invariant piece: every value of the `hashes` dict names a catalog row —
its canonical entry — whose stored hash is the dict key and whose
`content_owner_id` is unset. -/
def HashesOk (m : List (Option String × Nat)) (db : List FileEntry) : Prop :=
  ∀ kv ∈ m, ∃ e ∈ db, e.id = kv.2 ∧ e.hash = kv.1 ∧ e.content_owner_id = none

/-- Invariant piece: a row with `content_owner_id = some j` stores the hash
under which the dict maps to exactly `j`. -/
def OwnedOk (m : List (Option String × Nat)) (db : List FileEntry) : Prop :=
  ∀ e ∈ db, ∀ j : Nat, e.content_owner_id = some j →
    dict_lookup m e.hash = some j

/-- Invariant piece: a hashed row with no content owner is the dict's
canonical entry for its own hash. -/
def CanonicalOk (m : List (Option String × Nat)) (db : List FileEntry) : Prop :=
  ∀ e ∈ db, e.hash.isSome = true → e.content_owner_id = none →
    dict_lookup m e.hash = some e.id

/-! ## Helper lemmas -/

theorem full_hash_input_eq_of_le (n : Nat) :
    ∀ c : List Nat, c.length ≤ n → full_hash_input c = c := by
  induction n with
  | zero =>
      intro c h
      have hc : c = [] := List.eq_nil_of_length_eq_zero (Nat.le_zero.mp h)
      subst hc
      simp [full_hash_input]
  | succ n ih =>
      intro c h
      by_cases hc : c = []
      · subst hc; simp [full_hash_input]
      · rw [full_hash_input]
        simp only [hc, if_false]
        rw [ih (c.drop 4096)]
        · exact List.take_append_drop 4096 c
        · have hpos : 0 < c.length := List.length_pos.mpr hc
          simp only [List.length_drop]
          omega

/-- The chunked read loop of the full-hash strategy feeds exactly the whole
content, in order, to the digest. -/
theorem full_hash_input_eq (c : List Nat) : full_hash_input c = c :=
  full_hash_input_eq_of_le c.length c le_rfl


/-! ## Claim theorems: hashing and scanning -/

/-- C6: the Hash Classifier selects its strategy by the size argument with the
boundary at 1 MiB: strictly below 1 MiB (so including 1 MiB − 1) the whole
content is streamed through the digest; at or above 1 MiB the digest input is
the three 100 KiB windows — start, middle centered at `size/2`, end —
concatenated in that order, each window offset clamped to `max(0, offset)`. -/
theorem c6_hash_strategy_boundary (H : List Nat → String) (c : List Nat)
    (sz : Nat) :
    calculate_hash H (some c) sz =
      some (if sz < 1048576 then H c
            else H (file_read c 0 102400 ++
                file_read c (Int.toNat (max 0 ((c.length : Int) / 2 - 51200)))
                  102400 ++
                file_read c (Int.toNat (max 0 ((c.length : Int) - 102400)))
                  102400)) := by
  show (if sz < 1048576 then some (H (full_hash_input c))
        else some (H (sampled_hash_input c))) = _
  by_cases hsz : sz < 1048576
  · simp only [hsz, if_true, full_hash_input_eq]
  · simp only [hsz, if_false]
    have h1 : Int.toNat (max 0 ((c.length : Int) / 2 - 51200)) =
        c.length / 2 - 51200 := by omega
    have h2 : Int.toNat (max 0 ((c.length : Int) - 102400)) =
        c.length - 102400 := by omega
    rw [h1, h2]
    rfl

/-- C8, counterexample: a folder entry scanned with `st_size = 4096` gets
`size = 4096`, not 0 — the scanner zeroes the size only for symlinks
(`entry.stat().st_size if file_type != "symlink" else 0`). -/
theorem c8_counterexample :
    ¬ (add_entry_row "pics" "/mnt/pics" 4096 "folder" none 0 2).size = 0 := by
  decide

/-- C8, amended: only symlink entries get `size = 0`; file **and folder**
entries carry the `st_size` read from filesystem metadata. -/
theorem c8_amended_sizes (name path : String) (stat_size : Nat)
    (parent_id : Option Nat) (is_sym : Nat) (new_id : Nat) :
    (add_entry_row name path stat_size "symlink" parent_id is_sym new_id).size = 0 ∧
    (add_entry_row name path stat_size "file" parent_id is_sym new_id).size = stat_size ∧
    (add_entry_row name path stat_size "folder" parent_id is_sym new_id).size = stat_size := by
  refine ⟨rfl, rfl, rfl⟩

/-! ## Claim theorems: duplicate detection -/

/-- C2 (code bug), evaluation at the failing input: two file entries above the
threshold whose reads both fail.  `calculate_hash` returns `None` instead of
raising, `find_duplicates` stores `None` as a key of its `hashes` dict, and
the second failed entry is linked as a duplicate of the first:
`content_owner_id = 1` despite both hashes having failed.  The claim (and
§4.3 of the spec: a failed hash must "not mark it as a duplicate of anything"
and no later entry may be linked to it) is violated. -/
theorem c2_failed_hash_linked_eval :
    (find_duplicates (fun _ => "x") (fun _ => none) 1048576
        [{ id := 1, name := "f1", path := "/mnt/a/f1", size := 2097152,
           ftype := "file", status := "pending", parent_id := none,
           hash := none, is_symlink := 0, content_owner_id := none },
         { id := 2, name := "f2", path := "/mnt/b/f2", size := 2097152,
           ftype := "file", status := "pending", parent_id := none,
           hash := none, is_symlink := 0, content_owner_id := none }]).map
      (fun e => (e.id, e.hash, e.content_owner_id)) =
    [(1, none, none), (2, none, some 1)] := by
  decide

/-! ## Claim theorems: backup executor -/

/-- C1 (code bug), evaluation at the failing input: catalog with canonical
owner id 1 at `/mnt/a/f1` and duplicate id 2 at `/mnt/b/f2` with
`content_owner_id = 1`; mount root `/mnt`, destination `/dst`; no filesystem
call fails.  `copy_file` resolves the "original" with
`get_file_by_path(file_path)` on the **duplicate's own** source path, so the
created symlink at `/dst/b/f2` targets `/dst/b/f2` itself — the duplicate's
own destination path — instead of the canonical owner's destination
`/dst/a/f1`, and the owner-not-found fallback can never trigger (the
duplicate's own path is always in the catalog). -/
theorem c1_duplicate_self_link_eval :
    (backup_file
        { mkdirFails := fun _ => false, symlinkFails := fun _ _ => false,
          copyFails := fun _ _ => false, diskUsage := fun _ => some (0, 0, 0) }
        { mounted_path := "/mnt", backup_destination := "/dst" } 5
        { id := 2, name := "f2", path := "/mnt/b/f2", size := 2097152,
          ftype := "file", status := "selected", parent_id := none,
          hash := some "h", is_symlink := 0, content_owner_id := some 1 }
        "/dst"
        { db := [{ id := 1, name := "f1", path := "/mnt/a/f1", size := 2097152,
                   ftype := "file", status := "selected", parent_id := none,
                   hash := some "h", is_symlink := 0, content_owner_id := none },
                 { id := 2, name := "f2", path := "/mnt/b/f2", size := 2097152,
                   ftype := "file", status := "selected", parent_id := none,
                   hash := some "h", is_symlink := 0,
                   content_owner_id := some 1 }],
          fsActions := [] }).fsActions =
      [FsAction.mkdirs "/dst/b", FsAction.mkdirs "/dst/b",
       FsAction.symlink "/dst/b/f2" "/dst/b/f2"] ∧
    "/dst/b/f2" ≠ "/dst/a/f1" := by
  constructor
  · decide
  · decide

/-- C3, counterexample: a symlink-kind entry at source path `/mnt/a/lnk`
whose link target is (say) `/mnt/data/real.bin`.  The code never reads the
link's target (`os.readlink` is never called): it runs
`os.symlink(file_path, dest_path)`, so the destination symlink's target is
the source symlink's own path `/mnt/a/lnk` — for any entry whose link target
differs from its own path, the created link's target is not "the same target
the source symlink pointed at", refuting the claim. -/
theorem c3_counterexample :
    (backup_file
        { mkdirFails := fun _ => false, symlinkFails := fun _ _ => false,
          copyFails := fun _ _ => false, diskUsage := fun _ => some (0, 0, 0) }
        { mounted_path := "/mnt", backup_destination := "/dst" } 5
        { id := 1, name := "lnk", path := "/mnt/a/lnk", size := 0,
          ftype := "symlink", status := "selected", parent_id := none,
          hash := none, is_symlink := 1, content_owner_id := none }
        "/dst"
        { db := [{ id := 1, name := "lnk", path := "/mnt/a/lnk", size := 0,
                   ftype := "symlink", status := "selected", parent_id := none,
                   hash := none, is_symlink := 1, content_owner_id := none }],
          fsActions := [] }).fsActions =
      [FsAction.mkdirs "/dst/a", FsAction.symlink "/mnt/a/lnk" "/dst/a/lnk"] ∧
    "/mnt/a/lnk" ≠ "/mnt/data/real.bin" := by
  constructor
  · decide
  · decide

/-- C3, amended: for a symlink-kind entry (with no content owner, as the
Duplicate Detector never hashes symlinks) the Executor creates a destination
symlink whose target is the **source symlink's own path** (it never reads the
link's target).  If link creation raises for any reason — `os.makedirs` on
the destination parent or `os.symlink` itself, both `OSError`s — it falls
back through `copy_file`, which byte-copies from the source symlink's path
(the link-target's content, since copying follows the link) instead of
failing the entry: the entry's status ends `"success"` whenever the link is
created or the fallback copy completes, and `"failed"` exactly when the
fallback copy itself raises (its `makedirs` — which re-raises on the same
directory that already failed — or the byte copy). -/
theorem c3_amended_symlink_materialization (env : FsEnv) (cfg : Config)
    (fuel : Nat) (file : FileEntry) (st : BMState)
    (hk : file.ftype = "symlink")
    (howner : file.content_owner_id = none) :
    (backup_file env cfg (fuel + 2) file cfg.backup_destination st).fsActions =
      st.fsActions ++
        (let dest := joinPath cfg.backup_destination
            (relPath file.path cfg.mounted_path)
         let d := dirname dest
         if env.mkdirFails d then []
         else if env.symlinkFails file.path dest then
           if env.copyFails file.path dest then
             [FsAction.mkdirs d, FsAction.mkdirs d]
           else
             [FsAction.mkdirs d, FsAction.mkdirs d,
              FsAction.copy2 file.path dest]
         else [FsAction.mkdirs d, FsAction.symlink file.path dest]) ∧
    (backup_file env cfg (fuel + 2) file cfg.backup_destination st).db =
      update_file_status (update_file_status st.db file.id "copying") file.id
        (let dest := joinPath cfg.backup_destination
            (relPath file.path cfg.mounted_path)
         let d := dirname dest
         if env.mkdirFails d then "failed"
         else if env.symlinkFails file.path dest then
           if env.copyFails file.path dest then "failed" else "success"
         else "success") := by
  cases hM : env.mkdirFails
      (dirname (joinPath cfg.backup_destination
        (relPath file.path cfg.mounted_path))) <;>
    cases hS : env.symlinkFails file.path
        (joinPath cfg.backup_destination (relPath file.path cfg.mounted_path)) <;>
      cases hC : env.copyFails file.path
          (joinPath cfg.backup_destination
            (relPath file.path cfg.mounted_path)) <;>
        simp [backup_file, create_symlink, copy_file, hk, howner, hM, hS, hC]

/-- Witness for the amended C3 theorem: a concrete symlink entry whose link
creation fails, with the fallback copy succeeding — the copy is performed
and the entry ends `"success"`. -/
theorem c3_amended_witness :
    (({ id := 1, name := "lnk", path := "/mnt/a/lnk", size := 0,
        ftype := "symlink", status := "selected", parent_id := none,
        hash := none, is_symlink := 1,
        content_owner_id := none } : FileEntry).ftype = "symlink" ∧
     ({ id := 1, name := "lnk", path := "/mnt/a/lnk", size := 0,
        ftype := "symlink", status := "selected", parent_id := none,
        hash := none, is_symlink := 1,
        content_owner_id := none } : FileEntry).content_owner_id = none) ∧
    ((backup_file
        { mkdirFails := fun _ => false, symlinkFails := fun _ _ => true,
          copyFails := fun _ _ => false, diskUsage := fun _ => some (0, 0, 0) }
        { mounted_path := "/mnt", backup_destination := "/dst" } (3 + 2)
        { id := 1, name := "lnk", path := "/mnt/a/lnk", size := 0,
          ftype := "symlink", status := "selected", parent_id := none,
          hash := none, is_symlink := 1, content_owner_id := none }
        ({ mounted_path := "/mnt", backup_destination := "/dst" } : Config).backup_destination
        { db := [{ id := 1, name := "lnk", path := "/mnt/a/lnk", size := 0,
                   ftype := "symlink", status := "selected", parent_id := none,
                   hash := none, is_symlink := 1,
                   content_owner_id := none }],
          fsActions := [] }).fsActions =
      ({ db := [{ id := 1, name := "lnk", path := "/mnt/a/lnk", size := 0,
                  ftype := "symlink", status := "selected", parent_id := none,
                  hash := none, is_symlink := 1,
                  content_owner_id := none }],
         fsActions := [] } : BMState).fsActions ++
        (let dest := joinPath
            ({ mounted_path := "/mnt", backup_destination := "/dst" } : Config).backup_destination
            (relPath "/mnt/a/lnk"
              ({ mounted_path := "/mnt", backup_destination := "/dst" } : Config).mounted_path)
         let d := dirname dest
         if ({ mkdirFails := fun _ => false, symlinkFails := fun _ _ => true,
               copyFails := fun _ _ => false,
               diskUsage := fun _ => some (0, 0, 0) } : FsEnv).mkdirFails d then []
         else if ({ mkdirFails := fun _ => false, symlinkFails := fun _ _ => true,
                    copyFails := fun _ _ => false,
                    diskUsage := fun _ => some (0, 0, 0) } : FsEnv).symlinkFails
             "/mnt/a/lnk" dest then
           if ({ mkdirFails := fun _ => false, symlinkFails := fun _ _ => true,
                 copyFails := fun _ _ => false,
                 diskUsage := fun _ => some (0, 0, 0) } : FsEnv).copyFails
               "/mnt/a/lnk" dest then
             [FsAction.mkdirs d, FsAction.mkdirs d]
           else
             [FsAction.mkdirs d, FsAction.mkdirs d,
              FsAction.copy2 "/mnt/a/lnk" dest]
         else [FsAction.mkdirs d, FsAction.symlink "/mnt/a/lnk" dest]) ∧
     (backup_file
        { mkdirFails := fun _ => false, symlinkFails := fun _ _ => true,
          copyFails := fun _ _ => false, diskUsage := fun _ => some (0, 0, 0) }
        { mounted_path := "/mnt", backup_destination := "/dst" } (3 + 2)
        { id := 1, name := "lnk", path := "/mnt/a/lnk", size := 0,
          ftype := "symlink", status := "selected", parent_id := none,
          hash := none, is_symlink := 1, content_owner_id := none }
        ({ mounted_path := "/mnt", backup_destination := "/dst" } : Config).backup_destination
        { db := [{ id := 1, name := "lnk", path := "/mnt/a/lnk", size := 0,
                   ftype := "symlink", status := "selected", parent_id := none,
                   hash := none, is_symlink := 1,
                   content_owner_id := none }],
          fsActions := [] }).db =
      update_file_status
        (update_file_status
          ({ db := [{ id := 1, name := "lnk", path := "/mnt/a/lnk", size := 0,
                      ftype := "symlink", status := "selected",
                      parent_id := none, hash := none, is_symlink := 1,
                      content_owner_id := none }],
             fsActions := [] } : BMState).db 1 "copying") 1
        (let dest := joinPath
            ({ mounted_path := "/mnt", backup_destination := "/dst" } : Config).backup_destination
            (relPath "/mnt/a/lnk"
              ({ mounted_path := "/mnt", backup_destination := "/dst" } : Config).mounted_path)
         let d := dirname dest
         if ({ mkdirFails := fun _ => false, symlinkFails := fun _ _ => true,
               copyFails := fun _ _ => false,
               diskUsage := fun _ => some (0, 0, 0) } : FsEnv).mkdirFails d then
           "failed"
         else if ({ mkdirFails := fun _ => false, symlinkFails := fun _ _ => true,
                    copyFails := fun _ _ => false,
                    diskUsage := fun _ => some (0, 0, 0) } : FsEnv).symlinkFails
             "/mnt/a/lnk" dest then
           if ({ mkdirFails := fun _ => false, symlinkFails := fun _ _ => true,
                 copyFails := fun _ _ => false,
                 diskUsage := fun _ => some (0, 0, 0) } : FsEnv).copyFails
               "/mnt/a/lnk" dest then "failed" else "success"
         else "success")) :=
  ⟨⟨rfl, rfl⟩,
    c3_amended_symlink_materialization
      { mkdirFails := fun _ => false, symlinkFails := fun _ _ => true,
        copyFails := fun _ _ => false, diskUsage := fun _ => some (0, 0, 0) }
      { mounted_path := "/mnt", backup_destination := "/dst" } 3
      { id := 1, name := "lnk", path := "/mnt/a/lnk", size := 0,
        ftype := "symlink", status := "selected", parent_id := none,
        hash := none, is_symlink := 1, content_owner_id := none }
      { db := [{ id := 1, name := "lnk", path := "/mnt/a/lnk", size := 0,
                 ftype := "symlink", status := "selected", parent_id := none,
                 hash := none, is_symlink := 1, content_owner_id := none }],
        fsActions := [] } rfl rfl⟩

/-- If the reported free space is below the selection's total size,
`start_backup` returns the state untouched (no DB writes, no filesystem
actions): the rejection happens before `backup_files` is invoked. -/
theorem start_backup_reject_of_lt (env : FsEnv) (cfg : Config) (fuel : Nat)
    (files : List FileEntry) (st : BMState)
    (h : get_free_space (env.diskUsage cfg.backup_destination) <
      (files.map fun f => f.size).sum) :
    start_backup env cfg fuel files st = st := by
  cases hemp : files.isEmpty
  · simp [start_backup, hemp, h]
  · simp [start_backup, hemp]

/-- C9: whenever the destination's free space is below the sum of the
selected sizes, the backup is rejected before any filesystem mutation or
status change: `start_backup` returns with the catalog and the action log
exactly as they were. -/
theorem c9_space_reject (env : FsEnv) (cfg : Config) (fuel : Nat)
    (files : List FileEntry) (st : BMState)
    (h : get_free_space (env.diskUsage cfg.backup_destination) <
      (files.map fun f => f.size).sum) :
    start_backup env cfg fuel files st = st :=
  start_backup_reject_of_lt env cfg fuel files st h

/-- Witness for C9: three selected files totalling 50 against a destination
reporting 10 free — the state is returned unchanged. -/
theorem c9_space_reject_witness :
    (get_free_space
        (({ mkdirFails := fun _ => false, symlinkFails := fun _ _ => false,
            copyFails := fun _ _ => false,
            diskUsage := fun _ => some (100, 90, 10) } : FsEnv).diskUsage
          ({ mounted_path := "/mnt", backup_destination := "/dst" } : Config).backup_destination) <
      (([{ id := 1, name := "a", path := "/mnt/a", size := 20, ftype := "file",
           status := "selected", parent_id := none, hash := none,
           is_symlink := 0, content_owner_id := none },
         { id := 2, name := "b", path := "/mnt/b", size := 20, ftype := "file",
           status := "selected", parent_id := none, hash := none,
           is_symlink := 0, content_owner_id := none },
         { id := 3, name := "c", path := "/mnt/c", size := 10, ftype := "file",
           status := "selected", parent_id := none, hash := none,
           is_symlink := 0, content_owner_id := none }] : List FileEntry).map
        fun f => f.size).sum) ∧
    start_backup
        { mkdirFails := fun _ => false, symlinkFails := fun _ _ => false,
          copyFails := fun _ _ => false, diskUsage := fun _ => some (100, 90, 10) }
        { mounted_path := "/mnt", backup_destination := "/dst" } 5
        [{ id := 1, name := "a", path := "/mnt/a", size := 20, ftype := "file",
           status := "selected", parent_id := none, hash := none,
           is_symlink := 0, content_owner_id := none },
         { id := 2, name := "b", path := "/mnt/b", size := 20, ftype := "file",
           status := "selected", parent_id := none, hash := none,
           is_symlink := 0, content_owner_id := none },
         { id := 3, name := "c", path := "/mnt/c", size := 10, ftype := "file",
           status := "selected", parent_id := none, hash := none,
           is_symlink := 0, content_owner_id := none }]
        { db := [], fsActions := [] } =
      { db := [], fsActions := [] } :=
  ⟨by decide,
    c9_space_reject
      { mkdirFails := fun _ => false, symlinkFails := fun _ _ => false,
        copyFails := fun _ _ => false, diskUsage := fun _ => some (100, 90, 10) }
      { mounted_path := "/mnt", backup_destination := "/dst" } 5
      [{ id := 1, name := "a", path := "/mnt/a", size := 20, ftype := "file",
         status := "selected", parent_id := none, hash := none,
         is_symlink := 0, content_owner_id := none },
       { id := 2, name := "b", path := "/mnt/b", size := 20, ftype := "file",
         status := "selected", parent_id := none, hash := none,
         is_symlink := 0, content_owner_id := none },
       { id := 3, name := "c", path := "/mnt/c", size := 10, ftype := "file",
         status := "selected", parent_id := none, hash := none,
         is_symlink := 0, content_owner_id := none }]
      { db := [], fsActions := [] } (by decide)⟩

/-- C10, counterexample: `get_free_space` does return 0 for an unqueryable
destination, but the caller's check `free_space < total_size` does **not**
reject every non-empty selection: a non-empty selection whose entries all
have size 0 has `total_size = 0`, `0 < 0` is false, and the backup starts —
here a file is even copied against the unqueryable destination. -/
theorem c10_counterexample :
    ([{ id := 1, name := "f", path := "/mnt/f", size := 0, ftype := "file",
        status := "selected", parent_id := none, hash := none,
        is_symlink := 0, content_owner_id := none }] : List FileEntry) ≠ [] ∧
    get_free_space
      (({ mkdirFails := fun _ => false, symlinkFails := fun _ _ => false,
          copyFails := fun _ _ => false,
          diskUsage := fun _ => none } : FsEnv).diskUsage "/dst") = 0 ∧
    (start_backup
        { mkdirFails := fun _ => false, symlinkFails := fun _ _ => false,
          copyFails := fun _ _ => false, diskUsage := fun _ => none }
        { mounted_path := "/mnt", backup_destination := "/dst" } 5
        [{ id := 1, name := "f", path := "/mnt/f", size := 0, ftype := "file",
           status := "selected", parent_id := none, hash := none,
           is_symlink := 0, content_owner_id := none }]
        { db := [{ id := 1, name := "f", path := "/mnt/f", size := 0,
                   ftype := "file", status := "selected", parent_id := none,
                   hash := none, is_symlink := 0, content_owner_id := none }],
          fsActions := [] }).fsActions =
      [FsAction.mkdirs "/dst", FsAction.copy2 "/mnt/f" "/dst/f"] := by
  refine ⟨by decide, rfl, by decide⟩

/-- C10, amended: for an unqueryable destination `get_free_space` returns 0,
so the caller's precondition check rejects every selection whose **total size
is positive** (rather than every non-empty selection): `start_backup` returns
the state untouched. -/
theorem c10_amended_reject_positive_total (env : FsEnv) (cfg : Config)
    (fuel : Nat) (files : List FileEntry) (st : BMState)
    (hquery : env.diskUsage cfg.backup_destination = none)
    (hpos : 0 < (files.map fun f => f.size).sum) :
    start_backup env cfg fuel files st = st := by
  apply start_backup_reject_of_lt
  rw [hquery]
  exact hpos

/-- Witness for the amended C10 theorem: one selected file of size 5, disk
usage query raising. -/
theorem c10_amended_witness :
    (({ mkdirFails := fun _ => false, symlinkFails := fun _ _ => false,
        copyFails := fun _ _ => false,
        diskUsage := fun _ => none } : FsEnv).diskUsage
      ({ mounted_path := "/mnt", backup_destination := "/dst" } : Config).backup_destination = none ∧
     0 < (([{ id := 1, name := "f", path := "/mnt/f", size := 5,
              ftype := "file", status := "selected", parent_id := none,
              hash := none, is_symlink := 0,
              content_owner_id := none }] : List FileEntry).map
          fun f => f.size).sum) ∧
    start_backup
        { mkdirFails := fun _ => false, symlinkFails := fun _ _ => false,
          copyFails := fun _ _ => false, diskUsage := fun _ => none }
        { mounted_path := "/mnt", backup_destination := "/dst" } 5
        [{ id := 1, name := "f", path := "/mnt/f", size := 5, ftype := "file",
           status := "selected", parent_id := none, hash := none,
           is_symlink := 0, content_owner_id := none }]
        { db := [], fsActions := [] } =
      { db := [], fsActions := [] } :=
  ⟨⟨rfl, by decide⟩,
    c10_amended_reject_positive_total
      { mkdirFails := fun _ => false, symlinkFails := fun _ _ => false,
        copyFails := fun _ _ => false, diskUsage := fun _ => none }
      { mounted_path := "/mnt", backup_destination := "/dst" } 5
      [{ id := 1, name := "f", path := "/mnt/f", size := 5, ftype := "file",
         status := "selected", parent_id := none, hash := none,
         is_symlink := 0, content_owner_id := none }]
      { db := [], fsActions := [] } rfl (by decide)⟩

theorem mem_db_update_of_ne (db : List FileEntry) (i : Nat)
    (g : FileEntry → FileEntry) (e : FileEntry) (he : e ∈ db)
    (hne : e.id ≠ i) : e ∈ db_update db i g := by
  unfold db_update
  exact List.mem_map.mpr ⟨e, he, by rw [if_neg hne]⟩

theorem mem_double_status (db : List FileEntry) (i : Nat) (c s : String)
    (e : FileEntry)
    (he : e ∈ update_file_status (update_file_status db i c) i s) :
    (e.id = i ∧ e.status = s) ∨ (e.id ≠ i ∧ e ∈ db) := by
  unfold update_file_status db_update at he
  rcases List.mem_map.mp he with ⟨e1, h1mem, h1eq⟩
  rcases List.mem_map.mp h1mem with ⟨e0, h0mem, h0eq⟩
  by_cases h : e0.id = i
  · left
    rw [if_pos h] at h0eq
    have h1id : e1.id = i := by rw [← h0eq]; exact h
    rw [if_pos h1id] at h1eq
    subst h1eq
    exact ⟨h1id, rfl⟩
  · right
    rw [if_neg h] at h0eq
    subst h0eq
    rw [if_neg h] at h1eq
    subst h1eq
    exact ⟨h, h0mem⟩

theorem mem_double_status_of_ne (db : List FileEntry) (i : Nat) (c s : String)
    (e : FileEntry) (he : e ∈ db) (hne : e.id ≠ i) :
    e ∈ update_file_status (update_file_status db i c) i s := by
  unfold update_file_status
  exact mem_db_update_of_ne _ _ _ _ (mem_db_update_of_ne _ _ _ _ he hne) hne

theorem backup_file_db_shape (env : FsEnv) (cfg : Config) (fuel : Nat)
    (file : FileEntry) (bd : String) (st : BMState) :
    (backup_file env cfg fuel file bd st).db =
      update_file_status (update_file_status st.db file.id "copying")
        file.id "success" ∨
    (backup_file env cfg fuel file bd st).db =
      update_file_status (update_file_status st.db file.id "copying")
        file.id "failed" := by
  simp only [backup_file]
  split
  · exact Or.inl rfl
  · exact Or.inr rfl

theorem backup_files_append (env : FsEnv) (cfg : Config) (fuel : Nat)
    (l : List FileEntry) (f : FileEntry) (st : BMState) :
    backup_files env cfg fuel (l ++ [f]) st =
      backup_file env cfg fuel f cfg.backup_destination
        (backup_files env cfg fuel l st) := by
  simp [backup_files, List.foldl_append]

/-- C4: after a backup pass, every catalog row whose id is in the selection
has status `"success"` or `"failed"` (never `"pending"`, `"selected"`, or
`"copying"`), for **every** environment — including environments in which
any subset of the filesystem operations fail, so one entry's materialization
failure never prevents the remaining entries from being processed; and rows
outside the selection are untouched. -/
theorem c4_backup_statuses (env : FsEnv) (cfg : Config) (fuel : Nat)
    (files : List FileEntry) (st : BMState) :
    (∀ e ∈ (backup_files env cfg fuel files st).db,
        e.id ∈ files.map (fun f => f.id) →
        e.status = "success" ∨ e.status = "failed") ∧
    (∀ e ∈ st.db, e.id ∉ files.map (fun f => f.id) →
        e ∈ (backup_files env cfg fuel files st).db) := by
  induction files using List.reverseRecOn with
  | nil =>
      constructor
      · intro e _ hid
        simp at hid
      · intro e he _
        simpa [backup_files] using he
  | append_singleton l f ih =>
      obtain ⟨ih1, ih2⟩ := ih
      rw [backup_files_append]
      constructor
      · intro e he hid
        rcases backup_file_db_shape env cfg fuel f cfg.backup_destination
            (backup_files env cfg fuel l st) with hdb | hdb
        · rw [hdb] at he
          rcases mem_double_status _ _ _ _ _ he with ⟨_, hes⟩ | ⟨hne, heR⟩
          · exact Or.inl hes
          · simp only [List.map_append, List.mem_append, List.map_cons,
              List.map_nil, List.mem_cons, List.not_mem_nil, or_false] at hid
            rcases hid with hid | hid
            · exact ih1 e heR hid
            · exact absurd hid hne
        · rw [hdb] at he
          rcases mem_double_status _ _ _ _ _ he with ⟨_, hes⟩ | ⟨hne, heR⟩
          · exact Or.inr hes
          · simp only [List.map_append, List.mem_append, List.map_cons,
              List.map_nil, List.mem_cons, List.not_mem_nil, or_false] at hid
            rcases hid with hid | hid
            · exact ih1 e heR hid
            · exact absurd hid hne
      · intro e he hid
        simp only [List.map_append, List.mem_append, List.map_cons,
          List.map_nil, List.mem_cons, List.not_mem_nil, or_false,
          not_or] at hid
        obtain ⟨hid1, hid2⟩ := hid
        have heR := ih2 e he hid1
        rcases backup_file_db_shape env cfg fuel f cfg.backup_destination
            (backup_files env cfg fuel l st) with hdb | hdb
        · rw [hdb]
          exact mem_double_status_of_ne _ _ _ _ _ heR hid2
        · rw [hdb]
          exact mem_double_status_of_ne _ _ _ _ _ heR hid2

/-- Witness for C4: a one-file selection in an all-succeeding environment;
the processed row ends with status `"success"`. -/
theorem c4_backup_statuses_witness :
    (({ id := 1, name := "f", path := "/mnt/f", size := 3, ftype := "file",
        status := "success", parent_id := none, hash := none, is_symlink := 0,
        content_owner_id := none } : FileEntry) ∈
      (backup_files
          { mkdirFails := fun _ => false, symlinkFails := fun _ _ => false,
            copyFails := fun _ _ => false, diskUsage := fun _ => some (0, 0, 0) }
          { mounted_path := "/mnt", backup_destination := "/dst" } 3
          [{ id := 1, name := "f", path := "/mnt/f", size := 3,
             ftype := "file", status := "selected", parent_id := none,
             hash := none, is_symlink := 0, content_owner_id := none }]
          { db := [{ id := 1, name := "f", path := "/mnt/f", size := 3,
                     ftype := "file", status := "selected", parent_id := none,
                     hash := none, is_symlink := 0,
                     content_owner_id := none }],
            fsActions := [] }).db ∧
     ({ id := 1, name := "f", path := "/mnt/f", size := 3, ftype := "file",
        status := "success", parent_id := none, hash := none, is_symlink := 0,
        content_owner_id := none } : FileEntry).id ∈
      ([{ id := 1, name := "f", path := "/mnt/f", size := 3, ftype := "file",
          status := "selected", parent_id := none, hash := none,
          is_symlink := 0,
          content_owner_id := none }] : List FileEntry).map (fun f => f.id)) ∧
    (({ id := 1, name := "f", path := "/mnt/f", size := 3, ftype := "file",
        status := "success", parent_id := none, hash := none, is_symlink := 0,
        content_owner_id := none } : FileEntry).status = "success" ∨
     ({ id := 1, name := "f", path := "/mnt/f", size := 3, ftype := "file",
        status := "success", parent_id := none, hash := none, is_symlink := 0,
        content_owner_id := none } : FileEntry).status = "failed") :=
  ⟨⟨by decide, by decide⟩,
    (c4_backup_statuses
        { mkdirFails := fun _ => false, symlinkFails := fun _ _ => false,
          copyFails := fun _ _ => false, diskUsage := fun _ => some (0, 0, 0) }
        { mounted_path := "/mnt", backup_destination := "/dst" } 3
        [{ id := 1, name := "f", path := "/mnt/f", size := 3, ftype := "file",
           status := "selected", parent_id := none, hash := none,
           is_symlink := 0, content_owner_id := none }]
        { db := [{ id := 1, name := "f", path := "/mnt/f", size := 3,
                   ftype := "file", status := "selected", parent_id := none,
                   hash := none, is_symlink := 0,
                   content_owner_id := none }],
          fsActions := [] }).1
      { id := 1, name := "f", path := "/mnt/f", size := 3, ftype := "file",
        status := "success", parent_id := none, hash := none, is_symlink := 0,
        content_owner_id := none } (by decide) (by decide)⟩

theorem dict_lookup_mem (m : List (Option String × Nat)) (k : Option String)
    (j : Nat) (h : dict_lookup m k = some j) : (k, j) ∈ m := by
  unfold dict_lookup at h
  cases hf : m.find? fun kv => kv.1 = k with
  | none => rw [hf] at h; exact absurd h (by simp)
  | some kv =>
      rw [hf] at h
      have hkmem : kv ∈ m := List.mem_of_find?_eq_some hf
      have hk1 : kv.1 = k := by
        have := List.find?_some hf
        exact of_decide_eq_true this
      have hj : kv.2 = j := by
        simpa using h
      have : (k, j) = kv := by
        cases kv
        simp only [Prod.mk.injEq]
        exact ⟨hk1.symm, hj.symm⟩
      rw [this]
      exact hkmem

theorem dict_lookup_cons (kv : Option String × Nat)
    (m : List (Option String × Nat)) (k : Option String) :
    dict_lookup (kv :: m) k =
      if kv.1 = k then some kv.2 else dict_lookup m k := by
  by_cases h : kv.1 = k
  · simp [dict_lookup, List.find?, h]
  · simp [dict_lookup, List.find?, h]

theorem mem_db_update_of_eq (db : List FileEntry) (i : Nat)
    (g : FileEntry → FileEntry) (e : FileEntry) (he : e ∈ db)
    (hid : e.id = i) : g e ∈ db_update db i g := by
  unfold db_update
  exact List.mem_map.mpr ⟨e, he, by rw [if_pos hid]⟩

theorem mem_db_update_elim (db : List FileEntry) (i : Nat)
    (g : FileEntry → FileEntry) (e' : FileEntry)
    (he : e' ∈ db_update db i g) :
    ∃ e ∈ db, e' = if e.id = i then g e else e := by
  unfold db_update at he
  rcases List.mem_map.mp he with ⟨e, hmem, heq⟩
  exact ⟨e, hmem, heq.symm⟩

theorem update_hash_ids (db : List FileEntry) (i : Nat) (hv : Option String) :
    (update_file_hash db i hv).map (fun e => e.id) =
      db.map (fun e => e.id) := by
  unfold update_file_hash db_update
  rw [List.map_map]
  apply List.map_congr_left
  intro e _
  by_cases h : e.id = i
  · simp [h]
  · simp [h]

theorem update_owner_ids (db : List FileEntry) (i j : Nat) :
    (update_file_content_owner db i j).map (fun e => e.id) =
      db.map (fun e => e.id) := by
  unfold update_file_content_owner db_update
  rw [List.map_map]
  apply List.map_congr_left
  intro e _
  by_cases h : e.id = i
  · simp [h]
  · simp [h]

theorem find_duplicates_loop_ids (H : List Nat → String)
    (contents : String → Option (List Nat)) (t : Nat) :
    ∀ (rest : List FileEntry) (m : List (Option String × Nat))
      (db : List FileEntry),
      (find_duplicates_loop H contents t rest m db).map (fun e => e.id) =
        db.map (fun e => e.id) := by
  intro rest
  induction rest with
  | nil => intro m db; rfl
  | cons f rest ih =>
      intro m db
      by_cases hc : f.ftype = "file" ∧ t < f.size
      · simp only [find_duplicates_loop]
        rw [if_pos hc]
        cases hl : dict_lookup m (calculate_hash H (contents f.path) f.size) with
        | some orig =>
            simp only [hl]
            rw [ih, update_owner_ids, update_hash_ids]
        | none =>
            simp only [hl]
            rw [ih, update_hash_ids]
      · simp only [find_duplicates_loop]
        rw [if_neg hc]
        exact ih m db

theorem find_duplicates_loop_mem_untouched (H : List Nat → String)
    (contents : String → Option (List Nat)) (t : Nat) :
    ∀ (rest : List FileEntry) (m : List (Option String × Nat))
      (db : List FileEntry) (e : FileEntry), e ∈ db →
      (∀ f ∈ rest, f.id = e.id → ¬(f.ftype = "file" ∧ t < f.size)) →
      e ∈ find_duplicates_loop H contents t rest m db := by
  intro rest
  induction rest with
  | nil => intro m db e he _; exact he
  | cons f rest ih =>
      intro m db e he hno
      by_cases hc : f.ftype = "file" ∧ t < f.size
      · have hne : e.id ≠ f.id := by
          intro h
          exact hno f (List.mem_cons_self f rest) h.symm hc
        have hno2 : ∀ f2 ∈ rest, f2.id = e.id → ¬(f2.ftype = "file" ∧ t < f2.size) :=
          fun f2 hf2 => hno f2 (List.mem_cons_of_mem f hf2)
        simp only [find_duplicates_loop]
        rw [if_pos hc]
        cases hl : dict_lookup m (calculate_hash H (contents f.path) f.size) with
        | some orig =>
            simp only [hl]
            apply ih
            · exact mem_db_update_of_ne _ _ _ _
                (mem_db_update_of_ne _ _ _ _ he hne) hne
            · exact hno2
        | none =>
            simp only [hl]
            apply ih
            · exact mem_db_update_of_ne _ _ _ _ he hne
            · exact hno2
      · simp only [find_duplicates_loop]
        rw [if_neg hc]
        exact ih m db e he fun f2 hf2 => hno f2 (List.mem_cons_of_mem f hf2)

theorem upd_hash_id (e : FileEntry) (hv : Option String) :
    ({ e with hash := hv } : FileEntry).id = e.id := rfl

theorem upd_hash_hash (e : FileEntry) (hv : Option String) :
    ({ e with hash := hv } : FileEntry).hash = hv := rfl

theorem upd_hash_owner (e : FileEntry) (hv : Option String) :
    ({ e with hash := hv } : FileEntry).content_owner_id =
      e.content_owner_id := rfl

theorem upd_both_id (e : FileEntry) (hv : Option String) (j : Nat) :
    ({ e with hash := hv, content_owner_id := some j } : FileEntry).id =
      e.id := rfl

theorem upd_both_hash (e : FileEntry) (hv : Option String) (j : Nat) :
    ({ e with hash := hv, content_owner_id := some j } : FileEntry).hash =
      hv := rfl

theorem upd_both_owner (e : FileEntry) (hv : Option String) (j : Nat) :
    ({ e with hash := hv, content_owner_id := some j } :
      FileEntry).content_owner_id = some j := rfl

theorem mem_hash_update_elim (db : List FileEntry) (i : Nat)
    (hv : Option String) (e1 : FileEntry)
    (he1 : e1 ∈ update_file_hash db i hv) :
    (∃ e0 ∈ db, e0.id = i ∧ e1 = { e0 with hash := hv }) ∨
    (e1 ∈ db ∧ e1.id ≠ i) := by
  unfold update_file_hash at he1
  rcases mem_db_update_elim _ _ _ _ he1 with ⟨e0, he0, heq0⟩
  by_cases h0 : e0.id = i
  · left
    exact ⟨e0, he0, h0, by rw [heq0, if_pos h0]⟩
  · right
    have h1 : e1 = e0 := by rw [heq0, if_neg h0]
    rw [h1]
    exact ⟨he0, h0⟩

theorem mem_double_dedup_elim (db : List FileEntry) (i : Nat)
    (hv : Option String) (orig : Nat) (e2 : FileEntry)
    (he2 : e2 ∈ update_file_content_owner (update_file_hash db i hv) i orig) :
    (∃ e0 ∈ db, e0.id = i ∧
      e2 = { e0 with hash := hv, content_owner_id := some orig }) ∨
    (e2 ∈ db ∧ e2.id ≠ i) := by
  unfold update_file_content_owner at he2
  rcases mem_db_update_elim _ _ _ _ he2 with ⟨e1, he1, heq1⟩
  rcases mem_hash_update_elim _ _ _ _ he1 with ⟨e0, he0, h0, heq0⟩ | ⟨he1db, hne1⟩
  · left
    refine ⟨e0, he0, h0, ?_⟩
    have hid1 : e1.id = i := by rw [heq0]; exact h0
    rw [heq1, if_pos hid1, heq0]
  · right
    have h1 : e2 = e1 := by rw [heq1, if_neg hne1]
    rw [h1]
    exact ⟨he1db, hne1⟩

theorem mem_hash_update_of_eq (db : List FileEntry) (i : Nat)
    (hv : Option String) (e0 : FileEntry) (he0 : e0 ∈ db) (h0 : e0.id = i) :
    ({ e0 with hash := hv } : FileEntry) ∈ update_file_hash db i hv := by
  unfold update_file_hash
  exact mem_db_update_of_eq _ _ _ _ he0 h0

theorem mem_hash_update_of_ne (db : List FileEntry) (i : Nat)
    (hv : Option String) (e : FileEntry) (he : e ∈ db) (hne : e.id ≠ i) :
    e ∈ update_file_hash db i hv := by
  unfold update_file_hash
  exact mem_db_update_of_ne _ _ _ _ he hne

theorem mem_double_dedup_of_eq (db : List FileEntry) (i : Nat)
    (hv : Option String) (orig : Nat) (e0 : FileEntry) (he0 : e0 ∈ db)
    (h0 : e0.id = i) :
    ({ e0 with hash := hv, content_owner_id := some orig } : FileEntry) ∈
      update_file_content_owner (update_file_hash db i hv) i orig := by
  unfold update_file_content_owner
  have h1 := mem_hash_update_of_eq db i hv e0 he0 h0
  exact mem_db_update_of_eq _ _ _ _ h1 h0

theorem mem_double_dedup_of_ne (db : List FileEntry) (i : Nat)
    (hv : Option String) (orig : Nat) (e : FileEntry) (he : e ∈ db)
    (hne : e.id ≠ i) :
    e ∈ update_file_content_owner (update_file_hash db i hv) i orig := by
  unfold update_file_content_owner
  exact mem_db_update_of_ne _ _ _ _ (mem_hash_update_of_ne _ _ _ _ he hne) hne

theorem find_duplicates_loop_invariant (H : List Nat → String)
    (contents : String → Option (List Nat)) (t : Nat) :
    ∀ (rest : List FileEntry) (m : List (Option String × Nat))
      (db : List FileEntry),
      ((rest.map fun f => f.id).Nodup) →
      (∀ f ∈ rest, ∀ e ∈ db, e.id = f.id →
        e.hash = none ∧ e.content_owner_id = none) →
      (∀ f ∈ rest, ∃ e ∈ db, e.id = f.id) →
      (∀ kv ∈ m, ∀ f ∈ rest, kv.2 ≠ f.id) →
      HashesOk m db → OwnedOk m db → CanonicalOk m db →
      ∃ m2, HashesOk m2 (find_duplicates_loop H contents t rest m db) ∧
        OwnedOk m2 (find_duplicates_loop H contents t rest m db) ∧
        CanonicalOk m2 (find_duplicates_loop H contents t rest m db) := by
  intro rest
  induction rest with
  | nil =>
      intro m db _ _ _ _ h5 h6 h7
      exact ⟨m, h5, h6, h7⟩
  | cons f rest ih =>
      intro m db hnodup hfresh hin hmap h5 h6 h7
      rw [List.map_cons] at hnodup
      have hfid : f.id ∉ rest.map fun f2 => f2.id :=
        (List.nodup_cons.mp hnodup).1
      have hnodup2 := (List.nodup_cons.mp hnodup).2
      have hfreshT : ∀ f2 ∈ rest, ∀ e ∈ db, e.id = f2.id →
          e.hash = none ∧ e.content_owner_id = none :=
        fun f2 hf2 => hfresh f2 (List.mem_cons_of_mem f hf2)
      have hinT : ∀ f2 ∈ rest, ∃ e ∈ db, e.id = f2.id :=
        fun f2 hf2 => hin f2 (List.mem_cons_of_mem f hf2)
      have hmapT : ∀ kv ∈ m, ∀ f2 ∈ rest, kv.2 ≠ f2.id :=
        fun kv hkv f2 hf2 => hmap kv hkv f2 (List.mem_cons_of_mem f hf2)
      have hne_of_rest : ∀ f2 ∈ rest, f.id ≠ f2.id := by
        intro f2 hf2 h
        exact hfid (List.mem_map.mpr ⟨f2, hf2, h.symm⟩)
      by_cases hc : f.ftype = "file" ∧ t < f.size
      · simp only [find_duplicates_loop]
        rw [if_pos hc]
        generalize calculate_hash H (contents f.path) f.size = hv
        cases hl : dict_lookup m hv with
        | some orig =>
            simp only [hl]
            apply ih m
              (update_file_content_owner (update_file_hash db f.id hv) f.id orig)
              hnodup2
            · -- fresh rows for the remaining snapshot are untouched
              intro f2 hf2 e2 he2 hid2
              rcases mem_double_dedup_elim _ _ _ _ _ he2 with
                ⟨e0, _, h0, heq⟩ | ⟨he2db, _⟩
              · exfalso
                apply hne_of_rest f2 hf2
                rw [← h0, ← hid2, heq, upd_both_id]
              · exact hfreshT f2 hf2 e2 he2db hid2
            · -- remaining snapshot rows still exist
              intro f2 hf2
              rcases hinT f2 hf2 with ⟨e0, he0, hid0⟩
              have hne : e0.id ≠ f.id := by
                intro h
                exact hne_of_rest f2 hf2 (by rw [← h, hid0])
              exact ⟨e0, mem_double_dedup_of_ne _ _ _ _ _ he0 hne, hid0⟩
            · exact hmapT
            · -- HashesOk is preserved: canonical rows are untouched
              intro kv hkv
              rcases h5 kv hkv with ⟨e, he, hid, hh, how⟩
              have hne : e.id ≠ f.id := by
                rw [hid]
                exact hmap kv hkv f (List.mem_cons_self f rest)
              exact ⟨e, mem_double_dedup_of_ne _ _ _ _ _ he hne, hid, hh, how⟩
            · -- OwnedOk: the new duplicate points where the dict points
              intro e2 he2 j hj
              rcases mem_double_dedup_elim _ _ _ _ _ he2 with
                ⟨e0, _, _, heq⟩ | ⟨he2db, _⟩
              · rw [heq, upd_both_hash]
                rw [heq, upd_both_owner] at hj
                rw [hl]
                exact congrArg some (Option.some.inj hj)
              · exact h6 e2 he2db j hj
            · -- CanonicalOk: the new duplicate has an owner, others untouched
              intro e2 he2 hs how
              rcases mem_double_dedup_elim _ _ _ _ _ he2 with
                ⟨e0, _, _, heq⟩ | ⟨he2db, _⟩
              · exfalso
                rw [heq, upd_both_owner] at how
                exact Option.some_ne_none orig how
              · exact h7 e2 he2db hs how
        | none =>
            simp only [hl]
            apply ih ((hv, f.id) :: m) (update_file_hash db f.id hv) hnodup2
            · intro f2 hf2 e1 he1 hid1
              rcases mem_hash_update_elim _ _ _ _ he1 with
                ⟨e0, _, h0, heq⟩ | ⟨he1db, _⟩
              · exfalso
                apply hne_of_rest f2 hf2
                rw [← h0, ← hid1, heq, upd_hash_id]
              · exact hfreshT f2 hf2 e1 he1db hid1
            · intro f2 hf2
              rcases hinT f2 hf2 with ⟨e0, he0, hid0⟩
              have hne : e0.id ≠ f.id := by
                intro h
                exact hne_of_rest f2 hf2 (by rw [← h, hid0])
              exact ⟨e0, mem_hash_update_of_ne _ _ _ _ he0 hne, hid0⟩
            · -- the new dict entry's id is the head snapshot row's, distinct
              -- from every remaining snapshot id
              intro kv hkv f2 hf2
              rcases List.mem_cons.mp hkv with hkv | hkv
              · rw [hkv]
                exact hne_of_rest f2 hf2
              · exact hmapT kv hkv f2 hf2
            · -- HashesOk for the extended dict
              intro kv hkv
              rcases List.mem_cons.mp hkv with hkv | hkv
              · rcases hin f (List.mem_cons_self f rest) with ⟨e0, he0, hid0⟩
                obtain ⟨hh0, how0⟩ :=
                  hfresh f (List.mem_cons_self f rest) e0 he0 hid0
                refine ⟨{ e0 with hash := hv },
                  mem_hash_update_of_eq _ _ _ _ he0 hid0, ?_, ?_, ?_⟩
                · rw [upd_hash_id, hid0, hkv]
                · rw [upd_hash_hash, hkv]
                · rw [upd_hash_owner, how0]
              · rcases h5 kv hkv with ⟨e, he, hid, hh, how⟩
                have hne : e.id ≠ f.id := by
                  rw [hid]
                  exact hmap kv hkv f (List.mem_cons_self f rest)
                exact ⟨e, mem_hash_update_of_ne _ _ _ _ he hne, hid, hh, how⟩
            · -- OwnedOk: old owners never stored the new hash value
              intro e1 he1 j hj
              rcases mem_hash_update_elim _ _ _ _ he1 with
                ⟨e0, he0, h0, heq⟩ | ⟨he1db, _⟩
              · exfalso
                obtain ⟨_, how0⟩ :=
                  hfresh f (List.mem_cons_self f rest) e0 he0 h0
                rw [heq, upd_hash_owner, how0] at hj
                exact Option.noConfusion hj
              · have hold := h6 e1 he1db j hj
                have hne2 : hv ≠ e1.hash := by
                  intro heqh
                  rw [← heqh, hl] at hold
                  exact Option.noConfusion hold
                rw [dict_lookup_cons, if_neg hne2]
                exact hold
            · -- CanonicalOk: the head row becomes canonical for its hash
              intro e1 he1 hs how
              rcases mem_hash_update_elim _ _ _ _ he1 with
                ⟨e0, _, h0, heq⟩ | ⟨he1db, _⟩
              · rw [heq, upd_hash_hash, upd_hash_id, dict_lookup_cons,
                  if_pos rfl, h0]
              · have hold := h7 e1 he1db hs how
                have hne2 : hv ≠ e1.hash := by
                  intro heqh
                  rw [← heqh, hl] at hold
                  exact Option.noConfusion hold
                rw [dict_lookup_cons, if_neg hne2]
                exact hold
      · simp only [find_duplicates_loop]
        rw [if_neg hc]
        exact ih m db hnodup2 hfreshT hinT hmapT h5 h6 h7

theorem find_duplicates_id_inj (H : List Nat → String)
    (contents : String → Option (List Nat)) (t : Nat) (db : List FileEntry)
    (hids : (db.map fun e => e.id).Nodup) :
    ∀ e1 ∈ find_duplicates H contents t db,
    ∀ e2 ∈ find_duplicates H contents t db, e1.id = e2.id → e1 = e2 := by
  have hR : ((find_duplicates H contents t db).map fun e => e.id).Nodup := by
    unfold find_duplicates get_all_files
    rw [find_duplicates_loop_ids]
    exact hids
  exact List.inj_on_of_nodup_map hR

/-- C5: on a freshly scanned catalog (hashes and content owners unset,
distinct ids — exactly what the Scanner produces), after `find_duplicates`
every distinct stored hash value has at most one canonical entry
(`content_owner_id` unset), and every other entry carrying that hash points
`content_owner_id` directly at the canonical entry's id — the canonical
entry itself has no owner (no multi-hop chains) and no entry owns itself. -/
theorem c5_dedup_invariant (H : List Nat → String)
    (contents : String → Option (List Nat)) (t : Nat) (db : List FileEntry)
    (hids : (db.map fun e => e.id).Nodup)
    (hfresh : ∀ e ∈ db, e.hash = none ∧ e.content_owner_id = none) :
    (∀ e1 ∈ find_duplicates H contents t db,
     ∀ e2 ∈ find_duplicates H contents t db,
     ∀ h : String, e1.hash = some h → e2.hash = some h →
       e1.content_owner_id = none → e2.content_owner_id = none → e1 = e2) ∧
    (∀ e ∈ find_duplicates H contents t db, ∀ h : String, ∀ j : Nat,
       e.hash = some h → e.content_owner_id = some j →
       j ≠ e.id ∧ ∃ c ∈ find_duplicates H contents t db,
         c.id = j ∧ c.hash = some h ∧ c.content_owner_id = none) := by
  have hinj := find_duplicates_id_inj H contents t db hids
  obtain ⟨m2, hH, hO, hC⟩ :=
    find_duplicates_loop_invariant H contents t db [] db hids
      (fun f _ e he _ => hfresh e he)
      (fun f hf => ⟨f, hf, rfl⟩)
      (fun kv hkv => absurd hkv (List.not_mem_nil kv))
      (fun kv hkv => absurd hkv (List.not_mem_nil kv))
      (fun e he j hj => absurd hj (by rw [(hfresh e he).2]; simp))
      (fun e he hs _ => absurd hs (by rw [(hfresh e he).1]; simp))
  constructor
  · intro e1 he1 e2 he2 h hh1 hh2 ho1 ho2
    have hc1 := hC e1 he1 (by rw [hh1]; rfl) ho1
    have hc2 := hC e2 he2 (by rw [hh2]; rfl) ho2
    rw [hh1] at hc1
    rw [hh2] at hc2
    apply hinj e1 he1 e2 he2
    have := hc1.symm.trans hc2
    exact Option.some.inj this
  · intro e he h j hh ho
    have hlk := hO e he j ho
    rw [hh] at hlk
    have hmem := dict_lookup_mem m2 (some h) j hlk
    rcases hH (some h, j) hmem with ⟨c, hcmem, hcid, hch, hcow⟩
    constructor
    · intro hje
      have hce : c = e := hinj c hcmem e he (by rw [hcid, hje])
      rw [hce, ho] at hcow
      exact Option.noConfusion hcow
    · exact ⟨c, hcmem, hcid, hch, hcow⟩

/-- C7: `find_duplicates` hashes and links only file-kind rows whose size is
strictly above the caller's threshold.  Any row that is not a file, or whose
size is at or below the threshold, passes through the detection pass as the
very same record — in particular its `hash` and `content_owner_id` columns
(unset after a scan) stay exactly as they were — and it is the only result
row with its id. -/
theorem c7_threshold_skip (H : List Nat → String)
    (contents : String → Option (List Nat)) (t : Nat) (db : List FileEntry)
    (e : FileEntry)
    (hids : (db.map fun e2 => e2.id).Nodup)
    (he : e ∈ db)
    (hskip : e.ftype ≠ "file" ∨ e.size ≤ t) :
    e ∈ find_duplicates H contents t db ∧
    ∀ e2 ∈ find_duplicates H contents t db, e2.id = e.id → e2 = e := by
  have hinj0 := List.inj_on_of_nodup_map hids
  have hmem : e ∈ find_duplicates H contents t db := by
    unfold find_duplicates get_all_files
    apply find_duplicates_loop_mem_untouched H contents t db [] db e he
    intro f hf hfide hcond
    have hfe : f = e := hinj0 hf he hfide
    rcases hskip with hty | hsz
    · rw [hfe] at hcond
      exact hty hcond.1
    · rw [hfe] at hcond
      exact absurd hcond.2 (Nat.not_lt.mpr hsz)
  refine ⟨hmem, ?_⟩
  intro e2 he2 hid2
  exact find_duplicates_id_inj H contents t db hids e2 he2 e hmem hid2

/-- Witness for C5: two identical 2 MiB files (same content, same digest)
under different folders, fresh catalog. -/
theorem c5_dedup_invariant_witness :
    ((([{ id := 1, name := "f1", path := "/mnt/a/f1", size := 2097152,
          ftype := "file", status := "pending", parent_id := none,
          hash := none, is_symlink := 0, content_owner_id := none },
        { id := 2, name := "f2", path := "/mnt/b/f2", size := 2097152,
          ftype := "file", status := "pending", parent_id := none,
          hash := none, is_symlink := 0,
          content_owner_id := none }] : List FileEntry).map
        fun e => e.id).Nodup ∧
     (∀ e ∈ ([{ id := 1, name := "f1", path := "/mnt/a/f1", size := 2097152,
                ftype := "file", status := "pending", parent_id := none,
                hash := none, is_symlink := 0, content_owner_id := none },
              { id := 2, name := "f2", path := "/mnt/b/f2", size := 2097152,
                ftype := "file", status := "pending", parent_id := none,
                hash := none, is_symlink := 0,
                content_owner_id := none }] : List FileEntry),
        e.hash = none ∧ e.content_owner_id = none)) ∧
    ((∀ e1 ∈ find_duplicates (fun _ => "h") (fun _ => some [1, 2, 3]) 1048576
        [{ id := 1, name := "f1", path := "/mnt/a/f1", size := 2097152,
           ftype := "file", status := "pending", parent_id := none,
           hash := none, is_symlink := 0, content_owner_id := none },
         { id := 2, name := "f2", path := "/mnt/b/f2", size := 2097152,
           ftype := "file", status := "pending", parent_id := none,
           hash := none, is_symlink := 0, content_owner_id := none }],
      ∀ e2 ∈ find_duplicates (fun _ => "h") (fun _ => some [1, 2, 3]) 1048576
        [{ id := 1, name := "f1", path := "/mnt/a/f1", size := 2097152,
           ftype := "file", status := "pending", parent_id := none,
           hash := none, is_symlink := 0, content_owner_id := none },
         { id := 2, name := "f2", path := "/mnt/b/f2", size := 2097152,
           ftype := "file", status := "pending", parent_id := none,
           hash := none, is_symlink := 0, content_owner_id := none }],
      ∀ h : String, e1.hash = some h → e2.hash = some h →
        e1.content_owner_id = none → e2.content_owner_id = none → e1 = e2) ∧
     (∀ e ∈ find_duplicates (fun _ => "h") (fun _ => some [1, 2, 3]) 1048576
        [{ id := 1, name := "f1", path := "/mnt/a/f1", size := 2097152,
           ftype := "file", status := "pending", parent_id := none,
           hash := none, is_symlink := 0, content_owner_id := none },
         { id := 2, name := "f2", path := "/mnt/b/f2", size := 2097152,
           ftype := "file", status := "pending", parent_id := none,
           hash := none, is_symlink := 0, content_owner_id := none }],
      ∀ h : String, ∀ j : Nat,
        e.hash = some h → e.content_owner_id = some j →
        j ≠ e.id ∧
          ∃ c ∈ find_duplicates (fun _ => "h") (fun _ => some [1, 2, 3]) 1048576
            [{ id := 1, name := "f1", path := "/mnt/a/f1", size := 2097152,
               ftype := "file", status := "pending", parent_id := none,
               hash := none, is_symlink := 0, content_owner_id := none },
             { id := 2, name := "f2", path := "/mnt/b/f2", size := 2097152,
               ftype := "file", status := "pending", parent_id := none,
               hash := none, is_symlink := 0, content_owner_id := none }],
            c.id = j ∧ c.hash = some h ∧ c.content_owner_id = none)) :=
  ⟨⟨by decide, by decide⟩,
    c5_dedup_invariant (fun _ => "h") (fun _ => some [1, 2, 3]) 1048576
      [{ id := 1, name := "f1", path := "/mnt/a/f1", size := 2097152,
         ftype := "file", status := "pending", parent_id := none,
         hash := none, is_symlink := 0, content_owner_id := none },
       { id := 2, name := "f2", path := "/mnt/b/f2", size := 2097152,
         ftype := "file", status := "pending", parent_id := none,
         hash := none, is_symlink := 0, content_owner_id := none }]
      (by decide) (by decide)⟩

/-- Witness for C7: a folder row and a small file row; the folder row passes
through the detection pass unchanged. -/
theorem c7_threshold_skip_witness :
    ((([{ id := 1, name := "d", path := "/mnt/d", size := 4096,
          ftype := "folder", status := "pending", parent_id := none,
          hash := none, is_symlink := 0, content_owner_id := none },
        { id := 2, name := "s", path := "/mnt/d/s", size := 5,
          ftype := "file", status := "pending", parent_id := some 1,
          hash := none, is_symlink := 0,
          content_owner_id := none }] : List FileEntry).map
        fun e2 => e2.id).Nodup ∧
     ({ id := 1, name := "d", path := "/mnt/d", size := 4096,
        ftype := "folder", status := "pending", parent_id := none,
        hash := none, is_symlink := 0,
        content_owner_id := none } : FileEntry) ∈
       ([{ id := 1, name := "d", path := "/mnt/d", size := 4096,
           ftype := "folder", status := "pending", parent_id := none,
           hash := none, is_symlink := 0, content_owner_id := none },
         { id := 2, name := "s", path := "/mnt/d/s", size := 5,
           ftype := "file", status := "pending", parent_id := some 1,
           hash := none, is_symlink := 0,
           content_owner_id := none }] : List FileEntry) ∧
     (({ id := 1, name := "d", path := "/mnt/d", size := 4096,
         ftype := "folder", status := "pending", parent_id := none,
         hash := none, is_symlink := 0,
         content_owner_id := none } : FileEntry).ftype ≠ "file" ∨
      ({ id := 1, name := "d", path := "/mnt/d", size := 4096,
         ftype := "folder", status := "pending", parent_id := none,
         hash := none, is_symlink := 0,
         content_owner_id := none } : FileEntry).size ≤ 10)) ∧
    (({ id := 1, name := "d", path := "/mnt/d", size := 4096,
        ftype := "folder", status := "pending", parent_id := none,
        hash := none, is_symlink := 0,
        content_owner_id := none } : FileEntry) ∈
      find_duplicates (fun _ => "h") (fun _ => some [1, 2, 3]) 10
        [{ id := 1, name := "d", path := "/mnt/d", size := 4096,
           ftype := "folder", status := "pending", parent_id := none,
           hash := none, is_symlink := 0, content_owner_id := none },
         { id := 2, name := "s", path := "/mnt/d/s", size := 5,
           ftype := "file", status := "pending", parent_id := some 1,
           hash := none, is_symlink := 0, content_owner_id := none }] ∧
     ∀ e2 ∈ find_duplicates (fun _ => "h") (fun _ => some [1, 2, 3]) 10
        [{ id := 1, name := "d", path := "/mnt/d", size := 4096,
           ftype := "folder", status := "pending", parent_id := none,
           hash := none, is_symlink := 0, content_owner_id := none },
         { id := 2, name := "s", path := "/mnt/d/s", size := 5,
           ftype := "file", status := "pending", parent_id := some 1,
           hash := none, is_symlink := 0, content_owner_id := none }],
       e2.id = ({ id := 1, name := "d", path := "/mnt/d", size := 4096,
                  ftype := "folder", status := "pending", parent_id := none,
                  hash := none, is_symlink := 0,
                  content_owner_id := none } : FileEntry).id →
       e2 = { id := 1, name := "d", path := "/mnt/d", size := 4096,
              ftype := "folder", status := "pending", parent_id := none,
              hash := none, is_symlink := 0, content_owner_id := none }) :=
  ⟨⟨by decide, by decide, by decide⟩,
    c7_threshold_skip (fun _ => "h") (fun _ => some [1, 2, 3]) 10
      [{ id := 1, name := "d", path := "/mnt/d", size := 4096,
         ftype := "folder", status := "pending", parent_id := none,
         hash := none, is_symlink := 0, content_owner_id := none },
       { id := 2, name := "s", path := "/mnt/d/s", size := 5,
         ftype := "file", status := "pending", parent_id := some 1,
         hash := none, is_symlink := 0, content_owner_id := none }]
      { id := 1, name := "d", path := "/mnt/d", size := 4096,
        ftype := "folder", status := "pending", parent_id := none,
        hash := none, is_symlink := 0, content_owner_id := none }
      (by decide) (by decide) (by decide)⟩
